import Mathlib

/-!
Verification of the `typepki-oiddb` OID registry (kjur/typepki-oiddb)
against its natural-language specification.

The core of the repository is the singleton class `OIDDataBase` in
`src/index.mts`: five string-to-string mapping tables, a list of merged
data-set names, a bulk registration operation `regist`/`registOne`, and
seven lookup operations.  The repository also contains a variant of the
same class (an unnamed source file, here called the `UseUndef` variant)
whose lookups `oidtoname`, `shorttoname`, `nametoshort`, `oidtoshort`
take an optional `useUndef` flag and fall back to echoing the input.

TypeScript `Record<string, string>` objects are embedded as association
lists `List (String × String)` in property-insertion order; property
lookup is first-match lookup (`recGet`), and the guarded assignment
pattern `if (!(k in obj)) obj[k] = v` is `insertIfAbsent` (JS appends a
new key at the end of the enumeration order).
-/

/-- First-match lookup in an association list, embedding JS property read
`obj[k]` on a string-keyed record: `none` stands for `undefined`. -/
def recGet (m : List (String × String)) (k : String) : Option String :=
  match m with
  | [] => none
  | (a, b) :: t => if a = k then some b else recGet t k

/-- Embedding of the guarded write `if (!(k in obj)) obj[k] = v`:
insert `(k, v)` at the end of the enumeration order unless `k` is
already a key. -/
def insertIfAbsent (m : List (String × String)) (k v : String) :
    List (String × String) :=
  if (recGet m k).isSome then m else m ++ [(k, v)]

theorem recGet_append (m₁ m₂ : List (String × String)) (k : String) :
    recGet (m₁ ++ m₂) k =
      match recGet m₁ k with
      | some v => some v
      | none => recGet m₂ k := by
  induction m₁ with
  | nil => simp [recGet]
  | cons p t ih =>
      cases p with
      | mk a b =>
          by_cases h : a = k
          · simp [recGet, h]
          · simp [recGet, h, ih]

theorem recGet_insertIfAbsent_of_some {m : List (String × String)}
    {k v : String} (a b : String) (h : recGet m k = some v) :
    recGet (insertIfAbsent m a b) k = some v := by
  unfold insertIfAbsent
  by_cases hs : (recGet m a).isSome
  · simp [hs, h]
  · rw [if_neg hs, recGet_append, h]

theorem recGet_insertIfAbsent_self_of_none {m : List (String × String)}
    {k : String} (v : String) (h : recGet m k = none) :
    recGet (insertIfAbsent m k v) k = some v := by
  unfold insertIfAbsent
  simp [h, recGet_append, recGet]

theorem recGet_insertIfAbsent_of_none_ne {m : List (String × String)}
    {k : String} (a b : String) (h : recGet m k = none) (hne : a ≠ k) :
    recGet (insertIfAbsent m a b) k = none := by
  unfold insertIfAbsent
  by_cases hs : (recGet m a).isSome
  · simp [hs, h]
  · simp [hs, recGet_append, h, recGet, hne]

theorem insertIfAbsent_of_isSome {m : List (String × String)}
    {k : String} (v : String) (h : (recGet m k).isSome) :
    insertIfAbsent m k v = m := by
  simp [insertIfAbsent, h]

theorem recGet_isSome_insertIfAbsent {m : List (String × String)}
    {k : String} (a b : String) (h : (recGet m k).isSome) :
    (recGet (insertIfAbsent m a b) k).isSome := by
  obtain ⟨v, hv⟩ := Option.isSome_iff_exists.mp h
  exact Option.isSome_iff_exists.mpr ⟨v, recGet_insertIfAbsent_of_some a b hv⟩

theorem recGet_isSome_insertIfAbsent_self (m : List (String × String))
    (k v : String) : (recGet (insertIfAbsent m k v) k).isSome := by
  cases h : recGet m k with
  | none => simp [recGet_insertIfAbsent_self_of_none v h]
  | some w =>
      simp [recGet_insertIfAbsent_of_some k v h]

/-- State of the `OIDDataBase` class (`src/index.mts` lines 15–24): the
five tables, the merged-set-name list `_setlist`, and the debugging
`_uuid`. -/
structure OIDDataBase where
  uuid : String
  dbOID2NAME : List (String × String)
  dbNAME2OID : List (String × String)
  dbSHORT2NAME : List (String × String)
  dbNAME2SHORT : List (String × String)
  dbALIAS : List (String × String)
  setlist : List String
  deriving Repr, DecidableEq

/-- Interface `OIDDataSet` (`src/index.mts` lines 185–202): `setname`,
required `nametooid` record, optional `shorttoname` and `alias` records. -/
structure OIDDataSet where
  setname : String
  nametooid : List (String × String)
  shorttoname : Option (List (String × String))
  «alias» : Option (List (String × String))
  deriving Repr, DecidableEq

/-- State of a freshly constructed `OIDDataBase` after the `instance`
getter assigned `_uuid = crypto.randomUUID()`; all tables start empty
(`src/index.mts` lines 27–41, with `u` the fresh UUID value). -/
def emptyDB (u : String) : OIDDataBase :=
  { uuid := u
    dbOID2NAME := []
    dbNAME2OID := []
    dbSHORT2NAME := []
    dbNAME2SHORT := []
    dbALIAS := []
    setlist := [] }

/-- The static `instance` getter (`src/index.mts` lines 35–41): when the
static slot `_instance` is unset, construct the object and assign its
`_uuid` from `crypto.randomUUID()` (modelled by the value `fresh`);
otherwise return the stored instance unchanged. -/
def getInstance (slot : Option OIDDataBase) (fresh : String) : OIDDataBase :=
  match slot with
  | none => emptyDB fresh
  | some inst => inst

/-- Loop body of `registOne` phase 1 (`src/index.mts` lines 161–165):
for a pair `(name, oid)` of `dataset.nametooid`, insert into
`_dbNAME2OID` then into `_dbOID2NAME`, each guarded by its own
key-presence check. -/
def addPairNO (d : OIDDataBase) (p : String × String) : OIDDataBase :=
  let d1 := { d with dbNAME2OID := insertIfAbsent d.dbNAME2OID p.1 p.2 }
  { d1 with dbOID2NAME := insertIfAbsent d1.dbOID2NAME p.2 p.1 }

/-- Loop body of `registOne` phase 2 (`src/index.mts` lines 166–172):
for a pair `(short, name)` of `dataset.shorttoname`, insert into
`_dbSHORT2NAME` then into `_dbNAME2SHORT`, each guarded independently. -/
def addPairSN (d : OIDDataBase) (p : String × String) : OIDDataBase :=
  let d1 := { d with dbSHORT2NAME := insertIfAbsent d.dbSHORT2NAME p.1 p.2 }
  { d1 with dbNAME2SHORT := insertIfAbsent d1.dbNAME2SHORT p.2 p.1 }

/-- Loop body of `registOne` phase 3 (`src/index.mts` lines 173–178):
for a pair `(alias, origin)` of `dataset.alias`, guarded insert into
`_dbALIAS`. -/
def addPairAL (d : OIDDataBase) (p : String × String) : OIDDataBase :=
  { d with dbALIAS := insertIfAbsent d.dbALIAS p.1 p.2 }

/-- Method `registOne` (`src/index.mts` lines 159–179): return unchanged
when `_setlist.includes(dataset.setname)`; otherwise merge the
`nametooid`, optional `shorttoname` and optional `alias` records under
per-key first-wins guards.  Note that the source never appends
`dataset.setname` to `_setlist`. -/
def registOne (st : OIDDataBase) (ds : OIDDataSet) : OIDDataBase :=
  if st.setlist.contains ds.setname then st
  else
    let d1 := ds.nametooid.foldl addPairNO st
    let d2 := match ds.shorttoname with
      | none => d1
      | some l => l.foldl addPairSN d1
    match ds.«alias» with
    | none => d2
    | some l => l.foldl addPairAL d2

/-- Method `regist` (`src/index.mts` lines 153–157): `forEach` over the
data-set list, calling `registOne` on each in order. -/
def regist (st : OIDDataBase) (dsl : List OIDDataSet) : OIDDataBase :=
  dsl.foldl registOne st

/-- Method `oidtoname` of `src/index.mts` (lines 58–60): plain table
read of `_dbOID2NAME`, `undefined` when absent. -/
def oidtoname (db : OIDDataBase) (oid : String) : Option String :=
  recGet db.dbOID2NAME oid

/-- Method `nametooid` (`src/index.mts` lines 71–74): substitute the
alias target when `_dbALIAS[name]` is defined, then read `_dbNAME2OID`. -/
def nametooid (db : OIDDataBase) (name : String) : Option String :=
  let name2 := match recGet db.dbALIAS name with
    | some a => a
    | none => name
  recGet db.dbNAME2OID name2

/-- Method `shorttoname` of `src/index.mts` (lines 84–86): plain table
read of `_dbSHORT2NAME`. -/
def shorttoname (db : OIDDataBase) (short : String) : Option String :=
  recGet db.dbSHORT2NAME short

/-- Method `nametoshort` of `src/index.mts` (lines 96–98): plain table
read of `_dbNAME2SHORT`, `undefined` when absent (its own doc comment
promises the input name back instead). -/
def nametoshort (db : OIDDataBase) (name : String) : Option String :=
  recGet db.dbNAME2SHORT name

/-- Method `oidtoshort` (`src/index.mts` lines 109–115): resolve
`_dbOID2NAME[oid]`; when undefined return `oid`; otherwise read
`_dbNAME2SHORT[name]` and return the name itself when that is
undefined. -/
def oidtoshort (db : OIDDataBase) (oid : String) : Option String :=
  match recGet db.dbOID2NAME oid with
  | none => some oid
  | some name =>
      match recGet db.dbNAME2SHORT name with
      | none => some name
      | some short => some short

/-- Method `shorttooid` (`src/index.mts` lines 118–122): resolve
`_dbSHORT2NAME[short]`; when undefined return it (undefined); otherwise
read `_dbNAME2OID[name]`. -/
def shorttooid (db : OIDDataBase) (short : String) : Option String :=
  match recGet db.dbSHORT2NAME short with
  | none => none
  | some name => recGet db.dbNAME2OID name

/-- Method `aliasto` (`src/index.mts` lines 132–134): plain table read
of `_dbALIAS`. -/
def aliasto (db : OIDDataBase) (aliasfrom : String) : Option String :=
  recGet db.dbALIAS aliasfrom

namespace UseUndef

/-- Variant method `oidtoname(oid, useUndef?)` of the unnamed source
file (lines 61–65): read `_dbOID2NAME[oid]`; when defined return it;
otherwise return `undefined` when `useUndef` is truthy, else echo the
input `oid`. -/
def oidtoname (db : OIDDataBase) (oid : String) (useUndef : Bool) :
    Option String :=
  match recGet db.dbOID2NAME oid with
  | some name => some name
  | none => if useUndef then none else some oid

/-- Variant method `shorttoname(short, useUndef?)` (unnamed source file,
lines 93–97). -/
def shorttoname (db : OIDDataBase) (short : String) (useUndef : Bool) :
    Option String :=
  match recGet db.dbSHORT2NAME short with
  | some name => some name
  | none => if useUndef then none else some short

/-- Variant method `nametoshort(name, useUndef?)` (unnamed source file,
lines 110–114): read `_dbNAME2SHORT[name]`; when defined return it;
otherwise `undefined` under `useUndef`, else echo the input `name`. -/
def nametoshort (db : OIDDataBase) (name : String) (useUndef : Bool) :
    Option String :=
  match recGet db.dbNAME2SHORT name with
  | some short => some short
  | none => if useUndef then none else some name

/-- Variant method `oidtoshort(oid, useUndef?)` (unnamed source file,
lines 128–133): when `_dbOID2NAME[oid]` is undefined return `undefined`
under `useUndef` else the input `oid`; otherwise return
`_dbNAME2SHORT[name]` or, when that is undefined, the name itself. -/
def oidtoshort (db : OIDDataBase) (oid : String) (useUndef : Bool) :
    Option String :=
  match recGet db.dbOID2NAME oid with
  | none => if useUndef then none else some oid
  | some name =>
      match recGet db.dbNAME2SHORT name with
      | none => some name
      | some short => some short

end UseUndef

/-- Bundled data set `OIDSET_CRYPTO` (`src/index.mts` lines 206–245),
with records in source (= enumeration) order. -/
def OIDSET_CRYPTO : OIDDataSet :=
  { setname := "crypto"
    nametooid :=
      [ ("ecPublicKey", "1.2.840.10045.2.1")
      , ("prime256v1", "1.2.840.10045.3.1.7")
      , ("ecdsaWithSHA1", "1.2.840.10045.4.1")
      , ("ecdsaWithSHA224", "1.2.840.10045.4.3.1")
      , ("ecdsaWithSHA256", "1.2.840.10045.4.3.2")
      , ("ecdsaWithSHA384", "1.2.840.10045.4.3.3")
      , ("ecdsaWithSHA512", "1.2.840.10045.4.3.4")
      , ("rsaEncryption", "1.2.840.113549.1.1.1")
      , ("sha1WithRSAEncryption", "1.2.840.113549.1.1.5")
      , ("mgf1", "1.2.840.113549.1.1.8")
      , ("rsaPSS", "1.2.840.113549.1.1.10")
      , ("sha256WithRSAEncryption", "1.2.840.113549.1.1.11")
      , ("sha384WithRSAEncryption", "1.2.840.113549.1.1.12")
      , ("sha512WithRSAEncryption", "1.2.840.113549.1.1.13")
      , ("sha224WithRSAEncryption", "1.2.840.113549.1.1.14")
      , ("sha1", "1.3.14.3.2.26")
      , ("secp384r1", "1.3.132.0.34")
      , ("secp521r1", "1.3.132.0.35")
      , ("sha224", "2.16.840.1.101.3.4.2.4")
      , ("sha256", "2.16.840.1.101.3.4.2.1")
      , ("sha384", "2.16.840.1.101.3.4.2.2")
      , ("sha512", "2.16.840.1.101.3.4.2.3")
      , ("dsa", "1.2.840.10040.4.1")
      , ("SHA1withDSA", "1.2.840.10040.4.3")
      , ("SHA224withDSA", "2.16.840.1.101.3.4.3.1")
      , ("SHA256withDSA", "2.16.840.1.101.3.4.3.2") ]
    shorttoname := none
    «alias» := some
      [ ("P-256", "prime256v1")
      , ("P-384", "secp384r1")
      , ("P-521", "secp521r1")
      , ("NIST P-256", "prime256v1")
      , ("NIST P-384", "secp384r1")
      , ("NIST P-521", "secp521r1")
      , ("secp256r1", "prime256v1") ] }

/-- Bundled data set `OIDSET_X509` (`src/index.mts` lines 273–304). -/
def OIDSET_X509 : OIDDataSet :=
  { setname := "x509"
    nametooid :=
      [ ("commonName", "2.5.4.3")
      , ("countryName", "2.5.4.6")
      , ("organizationName", "2.5.4.10")
      , ("organizationIdentifier", "2.5.4.97")
      , ("subjectKeyIdentifier", "2.5.29.14")
      , ("keyUsage", "2.5.29.15")
      , ("subjectAltName", "2.5.29.17")
      , ("basicConstraints", "2.5.29.19")
      , ("certificatePolicies", "2.5.29.32")
      , ("authorityKeyIdentifier", "2.5.29.35")
      , ("extKeyUsage", "2.5.29.37")
      , ("authorityInfoAccess", "1.3.6.1.5.5.7.1.1")
      , ("serverAuth", "1.3.6.1.5.5.7.3.1")
      , ("clientAuth", "1.3.6.1.5.5.7.3.2")
      , ("ocsp", "1.3.6.1.5.5.7.48.1")
      , ("caIssuers", "1.3.6.1.5.5.7.48.2")
      , ("extendedValidationCertificates", "1.3.6.1.4.1.11129.2.4.2")
      , ("cabfBrDomainValidated", "2.23.140.1.2.1") ]
    shorttoname := some
      [ ("CN", "commonName")
      , ("OU", "organizationName")
      , ("C", "countryName") ]
    «alias» := none }

section FoldInvariants

/-- A property preserved by every step of a left fold is preserved by
the fold. -/
theorem foldl_inv {α β : Type} (step : β → α → β) (P : β → Prop)
    (h : ∀ b a, P b → P (step b a)) :
    ∀ (l : List α) (b : β), P b → P (l.foldl step b) := by
  intro l
  induction l with
  | nil => intro b hb; exact hb
  | cons a t ih => intro b hb; exact ih (step b a) (h b a hb)

theorem addPairNO_uuid (d : OIDDataBase) (p : String × String) :
    (addPairNO d p).uuid = d.uuid := rfl

theorem addPairNO_SHORT2NAME (d : OIDDataBase) (p : String × String) :
    (addPairNO d p).dbSHORT2NAME = d.dbSHORT2NAME := rfl

theorem addPairNO_NAME2SHORT (d : OIDDataBase) (p : String × String) :
    (addPairNO d p).dbNAME2SHORT = d.dbNAME2SHORT := rfl

theorem addPairNO_ALIAS (d : OIDDataBase) (p : String × String) :
    (addPairNO d p).dbALIAS = d.dbALIAS := rfl

theorem addPairNO_setlist (d : OIDDataBase) (p : String × String) :
    (addPairNO d p).setlist = d.setlist := rfl

theorem addPairSN_uuid (d : OIDDataBase) (p : String × String) :
    (addPairSN d p).uuid = d.uuid := rfl

theorem addPairSN_OID2NAME (d : OIDDataBase) (p : String × String) :
    (addPairSN d p).dbOID2NAME = d.dbOID2NAME := rfl

theorem addPairSN_NAME2OID (d : OIDDataBase) (p : String × String) :
    (addPairSN d p).dbNAME2OID = d.dbNAME2OID := rfl

theorem addPairSN_ALIAS (d : OIDDataBase) (p : String × String) :
    (addPairSN d p).dbALIAS = d.dbALIAS := rfl

theorem addPairSN_setlist (d : OIDDataBase) (p : String × String) :
    (addPairSN d p).setlist = d.setlist := rfl

theorem addPairAL_uuid (d : OIDDataBase) (p : String × String) :
    (addPairAL d p).uuid = d.uuid := rfl

theorem addPairAL_OID2NAME (d : OIDDataBase) (p : String × String) :
    (addPairAL d p).dbOID2NAME = d.dbOID2NAME := rfl

theorem addPairAL_NAME2OID (d : OIDDataBase) (p : String × String) :
    (addPairAL d p).dbNAME2OID = d.dbNAME2OID := rfl

theorem addPairAL_SHORT2NAME (d : OIDDataBase) (p : String × String) :
    (addPairAL d p).dbSHORT2NAME = d.dbSHORT2NAME := rfl

theorem addPairAL_NAME2SHORT (d : OIDDataBase) (p : String × String) :
    (addPairAL d p).dbNAME2SHORT = d.dbNAME2SHORT := rfl

theorem addPairAL_setlist (d : OIDDataBase) (p : String × String) :
    (addPairAL d p).setlist = d.setlist := rfl

theorem registOne_setlist (st : OIDDataBase) (ds : OIDDataSet) :
    (registOne st ds).setlist = st.setlist := by
  unfold registOne
  by_cases hc : st.setlist.contains ds.setname = true
  · rw [if_pos hc]
  · rw [if_neg hc]
    have h1 : ∀ (l : List (String × String)) (d : OIDDataBase),
        d.setlist = st.setlist → (l.foldl addPairNO d).setlist = st.setlist :=
      fun l d hd => foldl_inv addPairNO (fun x => x.setlist = st.setlist)
        (fun b a hb => by simp only [addPairNO_setlist]; exact hb) l d hd
    have h2 : ∀ (l : List (String × String)) (d : OIDDataBase),
        d.setlist = st.setlist → (l.foldl addPairSN d).setlist = st.setlist :=
      fun l d hd => foldl_inv addPairSN (fun x => x.setlist = st.setlist)
        (fun b a hb => by simp only [addPairSN_setlist]; exact hb) l d hd
    have h3 : ∀ (l : List (String × String)) (d : OIDDataBase),
        d.setlist = st.setlist → (l.foldl addPairAL d).setlist = st.setlist :=
      fun l d hd => foldl_inv addPairAL (fun x => x.setlist = st.setlist)
        (fun b a hb => by simp only [addPairAL_setlist]; exact hb) l d hd
    cases hsn : ds.shorttoname with
    | none =>
        cases hal : ds.«alias» with
        | none => exact h1 ds.nametooid st rfl
        | some la => exact h3 la _ (h1 ds.nametooid st rfl)
    | some ls =>
        cases hal : ds.«alias» with
        | none => exact h2 ls _ (h1 ds.nametooid st rfl)
        | some la => exact h3 la _ (h2 ls _ (h1 ds.nametooid st rfl))

theorem regist_setlist (st : OIDDataBase) (dsl : List OIDDataSet) :
    (regist st dsl).setlist = st.setlist :=
  foldl_inv registOne (fun x => x.setlist = st.setlist)
    (fun b a hb => by simp only [registOne_setlist]; exact hb) dsl st rfl

theorem registOne_uuid (st : OIDDataBase) (ds : OIDDataSet) :
    (registOne st ds).uuid = st.uuid := by
  unfold registOne
  by_cases hc : st.setlist.contains ds.setname = true
  · rw [if_pos hc]
  · rw [if_neg hc]
    have h1 : ∀ (l : List (String × String)) (d : OIDDataBase),
        d.uuid = st.uuid → (l.foldl addPairNO d).uuid = st.uuid :=
      fun l d hd => foldl_inv addPairNO (fun x => x.uuid = st.uuid)
        (fun b a hb => by simp only [addPairNO_uuid]; exact hb) l d hd
    have h2 : ∀ (l : List (String × String)) (d : OIDDataBase),
        d.uuid = st.uuid → (l.foldl addPairSN d).uuid = st.uuid :=
      fun l d hd => foldl_inv addPairSN (fun x => x.uuid = st.uuid)
        (fun b a hb => by simp only [addPairSN_uuid]; exact hb) l d hd
    have h3 : ∀ (l : List (String × String)) (d : OIDDataBase),
        d.uuid = st.uuid → (l.foldl addPairAL d).uuid = st.uuid :=
      fun l d hd => foldl_inv addPairAL (fun x => x.uuid = st.uuid)
        (fun b a hb => by simp only [addPairAL_uuid]; exact hb) l d hd
    cases hsn : ds.shorttoname with
    | none =>
        cases hal : ds.«alias» with
        | none => exact h1 ds.nametooid st rfl
        | some la => exact h3 la _ (h1 ds.nametooid st rfl)
    | some ls =>
        cases hal : ds.«alias» with
        | none => exact h2 ls _ (h1 ds.nametooid st rfl)
        | some la => exact h3 la _ (h2 ls _ (h1 ds.nametooid st rfl))

theorem regist_uuid (st : OIDDataBase) (dsl : List OIDDataSet) :
    (regist st dsl).uuid = st.uuid :=
  foldl_inv registOne (fun x => x.uuid = st.uuid)
    (fun b a hb => by simp only [registOne_uuid]; exact hb) dsl st rfl

end FoldInvariants

theorem addPairNO_NAME2OID_eq (d : OIDDataBase) (p : String × String) :
    (addPairNO d p).dbNAME2OID = insertIfAbsent d.dbNAME2OID p.1 p.2 := rfl

theorem addPairNO_OID2NAME_eq (d : OIDDataBase) (p : String × String) :
    (addPairNO d p).dbOID2NAME = insertIfAbsent d.dbOID2NAME p.2 p.1 := rfl

theorem addPairSN_SHORT2NAME_eq (d : OIDDataBase) (p : String × String) :
    (addPairSN d p).dbSHORT2NAME = insertIfAbsent d.dbSHORT2NAME p.1 p.2 := rfl

theorem addPairSN_NAME2SHORT_eq (d : OIDDataBase) (p : String × String) :
    (addPairSN d p).dbNAME2SHORT = insertIfAbsent d.dbNAME2SHORT p.2 p.1 := rfl

theorem addPairAL_ALIAS_eq (d : OIDDataBase) (p : String × String) :
    (addPairAL d p).dbALIAS = insertIfAbsent d.dbALIAS p.1 p.2 := rfl

/-- Relation between two registry states: every binding present in the
first is present, with the same value, in the second, for each of the
five tables. -/
def tablesPres (s t : OIDDataBase) : Prop :=
  (∀ k v, recGet s.dbNAME2OID k = some v → recGet t.dbNAME2OID k = some v) ∧
  (∀ k v, recGet s.dbOID2NAME k = some v → recGet t.dbOID2NAME k = some v) ∧
  (∀ k v, recGet s.dbSHORT2NAME k = some v → recGet t.dbSHORT2NAME k = some v) ∧
  (∀ k v, recGet s.dbNAME2SHORT k = some v → recGet t.dbNAME2SHORT k = some v) ∧
  (∀ k v, recGet s.dbALIAS k = some v → recGet t.dbALIAS k = some v)

theorem tablesPres_refl (s : OIDDataBase) : tablesPres s s :=
  ⟨fun _ _ h => h, fun _ _ h => h, fun _ _ h => h, fun _ _ h => h,
   fun _ _ h => h⟩

theorem tablesPres_trans {a b c : OIDDataBase} (h₁ : tablesPres a b)
    (h₂ : tablesPres b c) : tablesPres a c :=
  ⟨fun k v h => h₂.1 k v (h₁.1 k v h),
   fun k v h => h₂.2.1 k v (h₁.2.1 k v h),
   fun k v h => h₂.2.2.1 k v (h₁.2.2.1 k v h),
   fun k v h => h₂.2.2.2.1 k v (h₁.2.2.2.1 k v h),
   fun k v h => h₂.2.2.2.2 k v (h₁.2.2.2.2 k v h)⟩

theorem tablesPres_addPairNO (d : OIDDataBase) (p : String × String) :
    tablesPres d (addPairNO d p) := by
  refine ⟨?_, ?_, ?_, ?_, ?_⟩
  · intro k v h
    rw [addPairNO_NAME2OID_eq]
    exact recGet_insertIfAbsent_of_some _ _ h
  · intro k v h
    rw [addPairNO_OID2NAME_eq]
    exact recGet_insertIfAbsent_of_some _ _ h
  · intro k v h; rw [addPairNO_SHORT2NAME]; exact h
  · intro k v h; rw [addPairNO_NAME2SHORT]; exact h
  · intro k v h; rw [addPairNO_ALIAS]; exact h

theorem tablesPres_addPairSN (d : OIDDataBase) (p : String × String) :
    tablesPres d (addPairSN d p) := by
  refine ⟨?_, ?_, ?_, ?_, ?_⟩
  · intro k v h; rw [addPairSN_NAME2OID]; exact h
  · intro k v h; rw [addPairSN_OID2NAME]; exact h
  · intro k v h
    rw [addPairSN_SHORT2NAME_eq]
    exact recGet_insertIfAbsent_of_some _ _ h
  · intro k v h
    rw [addPairSN_NAME2SHORT_eq]
    exact recGet_insertIfAbsent_of_some _ _ h
  · intro k v h; rw [addPairSN_ALIAS]; exact h

theorem tablesPres_addPairAL (d : OIDDataBase) (p : String × String) :
    tablesPres d (addPairAL d p) := by
  refine ⟨?_, ?_, ?_, ?_, ?_⟩
  · intro k v h; rw [addPairAL_NAME2OID]; exact h
  · intro k v h; rw [addPairAL_OID2NAME]; exact h
  · intro k v h; rw [addPairAL_SHORT2NAME]; exact h
  · intro k v h; rw [addPairAL_NAME2SHORT]; exact h
  · intro k v h
    rw [addPairAL_ALIAS_eq]
    exact recGet_insertIfAbsent_of_some _ _ h

theorem tablesPres_foldl {α : Type}
    (step : OIDDataBase → α → OIDDataBase)
    (hstep : ∀ d a, tablesPres d (step d a)) :
    ∀ (l : List α) (d : OIDDataBase), tablesPres d (l.foldl step d) := by
  intro l
  induction l with
  | nil => intro d; exact tablesPres_refl d
  | cons a t ih =>
      intro d
      rw [List.foldl_cons]
      exact tablesPres_trans (hstep d a) (ih (step d a))

theorem tablesPres_registOne (st : OIDDataBase) (ds : OIDDataSet) :
    tablesPres st (registOne st ds) := by
  unfold registOne
  by_cases hc : st.setlist.contains ds.setname = true
  · rw [if_pos hc]; exact tablesPres_refl st
  · rw [if_neg hc]
    have h1 := tablesPres_foldl addPairNO tablesPres_addPairNO
      ds.nametooid st
    cases hsn : ds.shorttoname with
    | none =>
        cases hal : ds.«alias» with
        | none => exact h1
        | some la =>
            exact tablesPres_trans h1
              (tablesPres_foldl addPairAL tablesPres_addPairAL la _)
    | some ls =>
        have h2 := tablesPres_trans h1
          (tablesPres_foldl addPairSN tablesPres_addPairSN ls _)
        cases hal : ds.«alias» with
        | none => exact h2
        | some la =>
            exact tablesPres_trans h2
              (tablesPres_foldl addPairAL tablesPres_addPairAL la _)

theorem tablesPres_regist (st : OIDDataBase) (dsl : List OIDDataSet) :
    tablesPres st (regist st dsl) := by
  unfold regist
  induction dsl generalizing st with
  | nil => exact tablesPres_refl st
  | cons d t ih =>
      rw [List.foldl_cons]
      exact tablesPres_trans (tablesPres_registOne st d) (ih (registOne st d))

theorem tablesPres_monoNO {a b : OIDDataBase} (h : tablesPres a b)
    {k : String} (hk : (recGet a.dbNAME2OID k).isSome) :
    (recGet b.dbNAME2OID k).isSome := by
  obtain ⟨v, hv⟩ := Option.isSome_iff_exists.mp hk
  exact Option.isSome_iff_exists.mpr ⟨v, h.1 k v hv⟩

theorem tablesPres_monoON {a b : OIDDataBase} (h : tablesPres a b)
    {k : String} (hk : (recGet a.dbOID2NAME k).isSome) :
    (recGet b.dbOID2NAME k).isSome := by
  obtain ⟨v, hv⟩ := Option.isSome_iff_exists.mp hk
  exact Option.isSome_iff_exists.mpr ⟨v, h.2.1 k v hv⟩

theorem tablesPres_monoSN {a b : OIDDataBase} (h : tablesPres a b)
    {k : String} (hk : (recGet a.dbSHORT2NAME k).isSome) :
    (recGet b.dbSHORT2NAME k).isSome := by
  obtain ⟨v, hv⟩ := Option.isSome_iff_exists.mp hk
  exact Option.isSome_iff_exists.mpr ⟨v, h.2.2.1 k v hv⟩

theorem tablesPres_monoNS {a b : OIDDataBase} (h : tablesPres a b)
    {k : String} (hk : (recGet a.dbNAME2SHORT k).isSome) :
    (recGet b.dbNAME2SHORT k).isSome := by
  obtain ⟨v, hv⟩ := Option.isSome_iff_exists.mp hk
  exact Option.isSome_iff_exists.mpr ⟨v, h.2.2.2.1 k v hv⟩

theorem tablesPres_monoAL {a b : OIDDataBase} (h : tablesPres a b)
    {k : String} (hk : (recGet a.dbALIAS k).isSome) :
    (recGet b.dbALIAS k).isSome := by
  obtain ⟨v, hv⟩ := Option.isSome_iff_exists.mp hk
  exact Option.isSome_iff_exists.mpr ⟨v, h.2.2.2.2 k v hv⟩

/-- Every entry of the data set is present (under first-wins, possibly
with another value) in the corresponding tables of the state. -/
def dsRegistered (st : OIDDataBase) (ds : OIDDataSet) : Prop :=
  (∀ p ∈ ds.nametooid,
      (recGet st.dbNAME2OID p.1).isSome ∧ (recGet st.dbOID2NAME p.2).isSome) ∧
  (∀ l, ds.shorttoname = some l → ∀ p ∈ l,
      (recGet st.dbSHORT2NAME p.1).isSome ∧
      (recGet st.dbNAME2SHORT p.2).isSome) ∧
  (∀ l, ds.«alias» = some l → ∀ p ∈ l, (recGet st.dbALIAS p.1).isSome)

theorem dsRegistered_mono {s t : OIDDataBase} {ds : OIDDataSet}
    (h : dsRegistered s ds) (hp : tablesPres s t) : dsRegistered t ds := by
  refine ⟨?_, ?_, ?_⟩
  · intro p hmem
    exact ⟨tablesPres_monoNO hp ((h.1 p hmem).1),
           tablesPres_monoON hp ((h.1 p hmem).2)⟩
  · intro l hl p hmem
    exact ⟨tablesPres_monoSN hp ((h.2.1 l hl p hmem).1),
           tablesPres_monoNS hp ((h.2.1 l hl p hmem).2)⟩
  · intro l hl p hmem
    exact tablesPres_monoAL hp (h.2.2 l hl p hmem)

theorem foldlNO_covers :
    ∀ (l : List (String × String)) (d : OIDDataBase), ∀ p ∈ l,
      (recGet (l.foldl addPairNO d).dbNAME2OID p.1).isSome ∧
      (recGet (l.foldl addPairNO d).dbOID2NAME p.2).isSome := by
  intro l
  induction l with
  | nil => intro d p hp; cases hp
  | cons q t ih =>
      intro d p hp
      rw [List.foldl_cons]
      rcases List.mem_cons.mp hp with h | h
      · subst h
        have hb1 : (recGet (addPairNO d p).dbNAME2OID p.1).isSome := by
          rw [addPairNO_NAME2OID_eq]
          exact recGet_isSome_insertIfAbsent_self _ _ _
        have hb2 : (recGet (addPairNO d p).dbOID2NAME p.2).isSome := by
          rw [addPairNO_OID2NAME_eq]
          exact recGet_isSome_insertIfAbsent_self _ _ _
        have hrest := tablesPres_foldl addPairNO tablesPres_addPairNO
          t (addPairNO d p)
        exact ⟨tablesPres_monoNO hrest hb1, tablesPres_monoON hrest hb2⟩
      · exact ih (addPairNO d q) p h

theorem foldlSN_covers :
    ∀ (l : List (String × String)) (d : OIDDataBase), ∀ p ∈ l,
      (recGet (l.foldl addPairSN d).dbSHORT2NAME p.1).isSome ∧
      (recGet (l.foldl addPairSN d).dbNAME2SHORT p.2).isSome := by
  intro l
  induction l with
  | nil => intro d p hp; cases hp
  | cons q t ih =>
      intro d p hp
      rw [List.foldl_cons]
      rcases List.mem_cons.mp hp with h | h
      · subst h
        have hb1 : (recGet (addPairSN d p).dbSHORT2NAME p.1).isSome := by
          rw [addPairSN_SHORT2NAME_eq]
          exact recGet_isSome_insertIfAbsent_self _ _ _
        have hb2 : (recGet (addPairSN d p).dbNAME2SHORT p.2).isSome := by
          rw [addPairSN_NAME2SHORT_eq]
          exact recGet_isSome_insertIfAbsent_self _ _ _
        have hrest := tablesPres_foldl addPairSN tablesPres_addPairSN
          t (addPairSN d p)
        exact ⟨tablesPres_monoSN hrest hb1, tablesPres_monoNS hrest hb2⟩
      · exact ih (addPairSN d q) p h

theorem foldlAL_covers :
    ∀ (l : List (String × String)) (d : OIDDataBase), ∀ p ∈ l,
      (recGet (l.foldl addPairAL d).dbALIAS p.1).isSome := by
  intro l
  induction l with
  | nil => intro d p hp; cases hp
  | cons q t ih =>
      intro d p hp
      rw [List.foldl_cons]
      rcases List.mem_cons.mp hp with h | h
      · subst h
        have hb : (recGet (addPairAL d p).dbALIAS p.1).isSome := by
          rw [addPairAL_ALIAS_eq]
          exact recGet_isSome_insertIfAbsent_self _ _ _
        have hrest := tablesPres_foldl addPairAL tablesPres_addPairAL
          t (addPairAL d p)
        exact tablesPres_monoAL hrest hb
      · exact ih (addPairAL d q) p h

theorem registOne_covers (st : OIDDataBase) (ds : OIDDataSet)
    (hc : ¬ st.setlist.contains ds.setname = true) :
    dsRegistered (registOne st ds) ds := by
  unfold registOne
  rw [if_neg hc]
  have h1cov := foldlNO_covers ds.nametooid st
  cases hsn : ds.shorttoname with
  | none =>
      cases hal : ds.«alias» with
      | none =>
          refine ⟨fun p hp => h1cov p hp, ?_, ?_⟩
          · intro l hl; rw [hsn] at hl; cases hl
          · intro l hl; rw [hal] at hl; cases hl
      | some la =>
          have hpres := tablesPres_foldl addPairAL tablesPres_addPairAL
            la (ds.nametooid.foldl addPairNO st)
          refine ⟨?_, ?_, ?_⟩
          · intro p hp
            exact ⟨tablesPres_monoNO hpres (h1cov p hp).1,
                   tablesPres_monoON hpres (h1cov p hp).2⟩
          · intro l hl; rw [hsn] at hl; cases hl
          · intro l hl p hp
            rw [hal] at hl
            cases hl
            exact foldlAL_covers la _ p hp
  | some ls =>
      have hpres2 := tablesPres_foldl addPairSN tablesPres_addPairSN
        ls (ds.nametooid.foldl addPairNO st)
      have h2cov := foldlSN_covers ls (ds.nametooid.foldl addPairNO st)
      cases hal : ds.«alias» with
      | none =>
          refine ⟨?_, ?_, ?_⟩
          · intro p hp
            exact ⟨tablesPres_monoNO hpres2 (h1cov p hp).1,
                   tablesPres_monoON hpres2 (h1cov p hp).2⟩
          · intro l hl p hp
            rw [hsn] at hl
            cases hl
            exact h2cov p hp
          · intro l hl; rw [hal] at hl; cases hl
      | some la =>
          have hpres3 := tablesPres_foldl addPairAL tablesPres_addPairAL
            la (ls.foldl addPairSN (ds.nametooid.foldl addPairNO st))
          refine ⟨?_, ?_, ?_⟩
          · intro p hp
            exact ⟨tablesPres_monoNO hpres3
                     (tablesPres_monoNO hpres2 (h1cov p hp).1),
                   tablesPres_monoON hpres3
                     (tablesPres_monoON hpres2 (h1cov p hp).2)⟩
          · intro l hl p hp
            rw [hsn] at hl
            cases hl
            exact ⟨tablesPres_monoSN hpres3 (h2cov p hp).1,
                   tablesPres_monoNS hpres3 (h2cov p hp).2⟩
          · intro l hl p hp
            rw [hal] at hl
            cases hl
            exact foldlAL_covers la _ p hp

theorem addPairNO_id {d : OIDDataBase} {p : String × String}
    (h1 : (recGet d.dbNAME2OID p.1).isSome)
    (h2 : (recGet d.dbOID2NAME p.2).isSome) : addPairNO d p = d := by
  unfold addPairNO
  simp only [insertIfAbsent_of_isSome _ h1]
  simp only [insertIfAbsent_of_isSome _ h2]

theorem addPairSN_id {d : OIDDataBase} {p : String × String}
    (h1 : (recGet d.dbSHORT2NAME p.1).isSome)
    (h2 : (recGet d.dbNAME2SHORT p.2).isSome) : addPairSN d p = d := by
  unfold addPairSN
  simp only [insertIfAbsent_of_isSome _ h1]
  simp only [insertIfAbsent_of_isSome _ h2]

theorem addPairAL_id {d : OIDDataBase} {p : String × String}
    (h : (recGet d.dbALIAS p.1).isSome) : addPairAL d p = d := by
  unfold addPairAL
  simp only [insertIfAbsent_of_isSome _ h]

theorem foldlNO_id {d : OIDDataBase} :
    ∀ {l : List (String × String)},
      (∀ p ∈ l, (recGet d.dbNAME2OID p.1).isSome ∧
        (recGet d.dbOID2NAME p.2).isSome) →
      l.foldl addPairNO d = d := by
  intro l
  induction l with
  | nil => intro _; rfl
  | cons q t ih =>
      intro h
      rw [List.foldl_cons,
        addPairNO_id (h q (List.mem_cons_self q t)).1
          (h q (List.mem_cons_self q t)).2]
      exact ih (fun p hp => h p (List.mem_cons_of_mem q hp))

theorem foldlSN_id {d : OIDDataBase} :
    ∀ {l : List (String × String)},
      (∀ p ∈ l, (recGet d.dbSHORT2NAME p.1).isSome ∧
        (recGet d.dbNAME2SHORT p.2).isSome) →
      l.foldl addPairSN d = d := by
  intro l
  induction l with
  | nil => intro _; rfl
  | cons q t ih =>
      intro h
      rw [List.foldl_cons,
        addPairSN_id (h q (List.mem_cons_self q t)).1
          (h q (List.mem_cons_self q t)).2]
      exact ih (fun p hp => h p (List.mem_cons_of_mem q hp))

theorem foldlAL_id {d : OIDDataBase} :
    ∀ {l : List (String × String)},
      (∀ p ∈ l, (recGet d.dbALIAS p.1).isSome) →
      l.foldl addPairAL d = d := by
  intro l
  induction l with
  | nil => intro _; rfl
  | cons q t ih =>
      intro h
      rw [List.foldl_cons, addPairAL_id (h q (List.mem_cons_self q t))]
      exact ih (fun p hp => h p (List.mem_cons_of_mem q hp))

theorem registOne_id_of_registered {st : OIDDataBase} {ds : OIDDataSet}
    (h : dsRegistered st ds) : registOne st ds = st := by
  unfold registOne
  by_cases hc : st.setlist.contains ds.setname = true
  · rw [if_pos hc]
  · rw [if_neg hc]
    have e1 : ds.nametooid.foldl addPairNO st = st := foldlNO_id h.1
    cases hsn : ds.shorttoname with
    | none =>
        cases hal : ds.«alias» with
        | none => exact e1
        | some la =>
            rw [e1]
            exact foldlAL_id (h.2.2 la hal)
    | some ls =>
        have e2 : ls.foldl addPairSN st = st := foldlSN_id (h.2.1 ls hsn)
        cases hal : ds.«alias» with
        | none => rw [e1]; exact e2
        | some la =>
            rw [e1]
            show la.foldl addPairAL (ls.foldl addPairSN st) = st
            rw [e2]
            exact foldlAL_id (h.2.2 la hal)

theorem regist_id_of_all {R : OIDDataBase} :
    ∀ {dsl : List OIDDataSet},
      (∀ ds ∈ dsl, ds.setname ∈ R.setlist ∨ dsRegistered R ds) →
      regist R dsl = R := by
  intro dsl
  induction dsl with
  | nil => intro _; rfl
  | cons d t ih =>
      intro h
      have hd : registOne R d = R := by
        rcases h d (List.mem_cons_self d t) with hmem | hreg
        · unfold registOne
          rw [if_pos (List.elem_iff.mpr hmem)]
        · exact registOne_id_of_registered hreg
      unfold regist at ih ⊢
      rw [List.foldl_cons, hd]
      exact ih (fun ds hds => h ds (List.mem_cons_of_mem d hds))

theorem regist_covers (dsl : List OIDDataSet) :
    ∀ (st : OIDDataBase), ∀ ds ∈ dsl,
      ds.setname ∈ st.setlist ∨ dsRegistered (regist st dsl) ds := by
  induction dsl with
  | nil => intro st ds hds; cases hds
  | cons d t ih =>
      intro st ds hds
      have hstep : regist st (d :: t) = regist (registOne st d) t := by
        unfold regist
        rw [List.foldl_cons]
      rcases List.mem_cons.mp hds with h | h
      · subst h
        by_cases hmem : ds.setname ∈ st.setlist
        · exact Or.inl hmem
        · right
          have hc : ¬ st.setlist.contains ds.setname = true := by
            intro hcc
            exact hmem (List.elem_iff.mp hcc)
          have hcov := registOne_covers st ds hc
          rw [hstep]
          exact dsRegistered_mono hcov (tablesPres_regist (registOne st ds) t)
      · rcases ih (registOne st d) ds h with hmem | hreg
        · rw [registOne_setlist] at hmem
          exact Or.inl hmem
        · right
          rw [hstep]
          exact hreg

theorem foldlNO_SHORT2NAME (l : List (String × String)) (d : OIDDataBase) :
    (l.foldl addPairNO d).dbSHORT2NAME = d.dbSHORT2NAME :=
  foldl_inv addPairNO (fun x => x.dbSHORT2NAME = d.dbSHORT2NAME)
    (fun b a hb => by simp only [addPairNO_SHORT2NAME]; exact hb) l d rfl

theorem foldlNO_NAME2SHORT (l : List (String × String)) (d : OIDDataBase) :
    (l.foldl addPairNO d).dbNAME2SHORT = d.dbNAME2SHORT :=
  foldl_inv addPairNO (fun x => x.dbNAME2SHORT = d.dbNAME2SHORT)
    (fun b a hb => by simp only [addPairNO_NAME2SHORT]; exact hb) l d rfl

theorem foldlSN_NAME2OID (l : List (String × String)) (d : OIDDataBase) :
    (l.foldl addPairSN d).dbNAME2OID = d.dbNAME2OID :=
  foldl_inv addPairSN (fun x => x.dbNAME2OID = d.dbNAME2OID)
    (fun b a hb => by simp only [addPairSN_NAME2OID]; exact hb) l d rfl

theorem foldlSN_OID2NAME (l : List (String × String)) (d : OIDDataBase) :
    (l.foldl addPairSN d).dbOID2NAME = d.dbOID2NAME :=
  foldl_inv addPairSN (fun x => x.dbOID2NAME = d.dbOID2NAME)
    (fun b a hb => by simp only [addPairSN_OID2NAME]; exact hb) l d rfl

theorem foldlAL_NAME2OID (l : List (String × String)) (d : OIDDataBase) :
    (l.foldl addPairAL d).dbNAME2OID = d.dbNAME2OID :=
  foldl_inv addPairAL (fun x => x.dbNAME2OID = d.dbNAME2OID)
    (fun b a hb => by simp only [addPairAL_NAME2OID]; exact hb) l d rfl

theorem foldlAL_OID2NAME (l : List (String × String)) (d : OIDDataBase) :
    (l.foldl addPairAL d).dbOID2NAME = d.dbOID2NAME :=
  foldl_inv addPairAL (fun x => x.dbOID2NAME = d.dbOID2NAME)
    (fun b a hb => by simp only [addPairAL_OID2NAME]; exact hb) l d rfl

theorem foldlAL_SHORT2NAME_fix (l : List (String × String)) (d : OIDDataBase) :
    (l.foldl addPairAL d).dbSHORT2NAME = d.dbSHORT2NAME :=
  foldl_inv addPairAL (fun x => x.dbSHORT2NAME = d.dbSHORT2NAME)
    (fun b a hb => by simp only [addPairAL_SHORT2NAME]; exact hb) l d rfl

theorem foldlAL_NAME2SHORT_fix (l : List (String × String)) (d : OIDDataBase) :
    (l.foldl addPairAL d).dbNAME2SHORT = d.dbNAME2SHORT :=
  foldl_inv addPairAL (fun x => x.dbNAME2SHORT = d.dbNAME2SHORT)
    (fun b a hb => by simp only [addPairAL_NAME2SHORT]; exact hb) l d rfl

theorem foldlNO_inserts :
    ∀ (l : List (String × String)) (d : OIDDataBase) (n o : String),
      (n, o) ∈ l →
      recGet d.dbNAME2OID n = none →
      recGet d.dbOID2NAME o = none →
      (∀ p ∈ l, p ≠ (n, o) → p.1 ≠ n ∧ p.2 ≠ o) →
      recGet (l.foldl addPairNO d).dbNAME2OID n = some o ∧
      recGet (l.foldl addPairNO d).dbOID2NAME o = some n := by
  intro l
  induction l with
  | nil =>
      intro d n o hmem hn ho hdist
      simp at hmem
  | cons q t ih =>
      intro d n o hmem hn ho hdist
      rw [List.foldl_cons]
      by_cases hq : q = (n, o)
      · have hb1 : recGet (addPairNO d q).dbNAME2OID n = some o := by
          rw [hq, addPairNO_NAME2OID_eq]
          exact recGet_insertIfAbsent_self_of_none o hn
        have hb2 : recGet (addPairNO d q).dbOID2NAME o = some n := by
          rw [hq, addPairNO_OID2NAME_eq]
          exact recGet_insertIfAbsent_self_of_none n ho
        have hrest := tablesPres_foldl addPairNO tablesPres_addPairNO
          t (addPairNO d q)
        exact ⟨hrest.1 n o hb1, hrest.2.1 o n hb2⟩
      · have hne := hdist q (List.mem_cons_self q t) hq
        have hn' : recGet (addPairNO d q).dbNAME2OID n = none := by
          rw [addPairNO_NAME2OID_eq]
          exact recGet_insertIfAbsent_of_none_ne q.1 q.2 hn hne.1
        have ho' : recGet (addPairNO d q).dbOID2NAME o = none := by
          rw [addPairNO_OID2NAME_eq]
          exact recGet_insertIfAbsent_of_none_ne q.2 q.1 ho hne.2
        have hmem' : (n, o) ∈ t := by
          rcases List.mem_cons.mp hmem with h | h
          · exact absurd h.symm hq
          · exact h
        exact ih (addPairNO d q) n o hmem' hn' ho'
          (fun p hp => hdist p (List.mem_cons_of_mem q hp))

/-- C1: the claim states that the `setName` of a data set is recorded in
`registeredSetNames` (`_setlist`) at the end of its first successful
merge, so that a later offer under the same name is skipped.  The code
never appends to `_setlist`: this theorem shows that `registOne` leaves
`_setlist` unchanged in every case, and that after registering a set
named "a" a second, different set also named "a" is fully merged rather
than skipped (`nametooid "m"` resolves to the entry of the second set and
`_setlist` is still empty). -/
theorem C1_setname_never_recorded :
    (∀ (st : OIDDataBase) (ds : OIDDataSet),
        (registOne st ds).setlist = st.setlist) ∧
    (regist (regist (emptyDB "u")
        [⟨"a", [("n", "1.1")], none, none⟩])
        [⟨"a", [("m", "2.2")], none, none⟩]).setlist = [] ∧
    nametooid (regist (regist (emptyDB "u")
        [⟨"a", [("n", "1.1")], none, none⟩])
        [⟨"a", [("m", "2.2")], none, none⟩]) "m" = some "2.2" :=
  ⟨registOne_setlist, by decide, by decide⟩

/-- C2: first-registered-wins for every key of each of the five tables:
a binding present before a `regist` call is still present with the same
value afterwards, for any list of data sets; duplicates are dropped
without any error (all operations are total). -/
theorem C2_first_writer_wins (st : OIDDataBase) (dsl : List OIDDataSet)
    (k v : String) :
    (recGet st.dbOID2NAME k = some v →
      recGet (regist st dsl).dbOID2NAME k = some v) ∧
    (recGet st.dbNAME2OID k = some v →
      recGet (regist st dsl).dbNAME2OID k = some v) ∧
    (recGet st.dbSHORT2NAME k = some v →
      recGet (regist st dsl).dbSHORT2NAME k = some v) ∧
    (recGet st.dbNAME2SHORT k = some v →
      recGet (regist st dsl).dbNAME2SHORT k = some v) ∧
    (recGet st.dbALIAS k = some v →
      recGet (regist st dsl).dbALIAS k = some v) :=
  ⟨(tablesPres_regist st dsl).2.1 k v,
   (tablesPres_regist st dsl).1 k v,
   (tablesPres_regist st dsl).2.2.1 k v,
   (tablesPres_regist st dsl).2.2.2.1 k v,
   (tablesPres_regist st dsl).2.2.2.2 k v⟩

/-- C2 witness: after registering a set binding "n" to "1.1", a second
call offering "n" with value "2.2" leaves the original binding. -/
theorem C2_first_writer_wins_witness :
    recGet (regist (regist (emptyDB "u") [⟨"a", [("n", "1.1")], none, none⟩])
      [⟨"b", [("n", "2.2")], none, none⟩]).dbNAME2OID "n" = some "1.1" :=
  (C2_first_writer_wins (regist (emptyDB "u")
      [⟨"a", [("n", "1.1")], none, none⟩])
    [⟨"b", [("n", "2.2")], none, none⟩] "n" "1.1").2.1 (by decide)

/-- C8: registering the same collection twice produces a state identical
to registering it once (the five tables, and in fact the whole state,
are unchanged by the second call). -/
theorem C8_regist_idempotent (st : OIDDataBase) (dsl : List OIDDataSet) :
    regist (regist st dsl) dsl = regist st dsl := by
  apply regist_id_of_all
  intro ds hds
  rcases regist_covers dsl st ds hds with hmem | hreg
  · left
    rw [regist_setlist]
    exact hmem
  · right
    exact hreg

/-- C10: the uuid is assigned when the singleton is first created
(`getInstance` on an unset slot) and is never changed afterwards: a
later `getInstance` returns the stored object unchanged, and `regist`
leaves the uuid field untouched for every state and collection (lookup
operations do not modify the state at all in this embedding, being
functions of it). -/
theorem C10_uuid_stable (st i : OIDDataBase) (dsl : List OIDDataSet)
    (fresh : String) :
    (regist st dsl).uuid = st.uuid ∧
    getInstance (some i) fresh = i ∧
    (getInstance none fresh).uuid = fresh :=
  ⟨regist_uuid st dsl, rfl, rfl⟩

/-- C3 counterexample: the round-trip claim fails as stated.  Two data
sets with distinct set names both define the name "n"; the second set is
merged (its OID "2.2" is inserted and resolvable), yet
`canonicalNameToOid "n"` returns the OID "1.1" of the first set, not "2.2",
for the pair ("n", "2.2") of the merged second set. -/
theorem C3_roundtrip_counterexample :
    ("n", "2.2") ∈ (OIDDataSet.mk "b" [("n", "2.2")] none none).nametooid ∧
    oidtoname (regist (emptyDB "u")
      [⟨"a", [("n", "1.1")], none, none⟩,
       ⟨"b", [("n", "2.2")], none, none⟩]) "2.2" = some "n" ∧
    nametooid (regist (emptyDB "u")
      [⟨"a", [("n", "1.1")], none, none⟩,
       ⟨"b", [("n", "2.2")], none, none⟩]) "n" ≠ some "2.2" := by
  refine ⟨by decide, by decide, by decide⟩

/-- C3 amended: the round trip holds for a pair `(n, o)` of a merged
data set provided the pair actually won first-wins: the set name is
not in `_setlist`, neither `n` nor `o` is already a key of its table,
no other pair of the same set collides with `n` or `o`, and `n` is not
shadowed by an alias entry in the resulting registry.  Then
`canonicalNameToOid n = o` and `oidToCanonicalName o = n`. -/
theorem C3_roundtrip_amended (st : OIDDataBase) (ds : OIDDataSet)
    (n o : String)
    (hmem : (n, o) ∈ ds.nametooid)
    (hc : ¬ st.setlist.contains ds.setname = true)
    (hn : recGet st.dbNAME2OID n = none)
    (ho : recGet st.dbOID2NAME o = none)
    (hdist : ∀ p ∈ ds.nametooid, p ≠ (n, o) → p.1 ≠ n ∧ p.2 ≠ o)
    (hal : recGet (registOne st ds).dbALIAS n = none) :
    nametooid (registOne st ds) n = some o ∧
    oidtoname (registOne st ds) o = some n := by
  have hkey : recGet (registOne st ds).dbNAME2OID n = some o ∧
      recGet (registOne st ds).dbOID2NAME o = some n := by
    unfold registOne
    rw [if_neg hc]
    have h1 := foldlNO_inserts ds.nametooid st n o hmem hn ho hdist
    cases hsn : ds.shorttoname with
    | none =>
        cases hal2 : ds.«alias» with
        | none => exact h1
        | some la =>
            constructor
            · rw [foldlAL_NAME2OID]; exact h1.1
            · rw [foldlAL_OID2NAME]; exact h1.2
    | some ls =>
        cases hal2 : ds.«alias» with
        | none =>
            constructor
            · rw [foldlSN_NAME2OID]; exact h1.1
            · rw [foldlSN_OID2NAME]; exact h1.2
        | some la =>
            constructor
            · show recGet (la.foldl addPairAL
                (ls.foldl addPairSN
                  (ds.nametooid.foldl addPairNO st))).dbNAME2OID n = some o
              rw [foldlAL_NAME2OID, foldlSN_NAME2OID]
              exact h1.1
            · show recGet (la.foldl addPairAL
                (ls.foldl addPairSN
                  (ds.nametooid.foldl addPairNO st))).dbOID2NAME o = some n
              rw [foldlAL_OID2NAME, foldlSN_OID2NAME]
              exact h1.2
  constructor
  · simp only [nametooid, hal]
    exact hkey.1
  · exact hkey.2

/-- C3 amended, witness: a concrete single-pair data set merged into the
empty registry round-trips. -/
theorem C3_roundtrip_amended_witness :
    nametooid (registOne (emptyDB "u")
      ⟨"a", [("myname", "1.2.3")], none, none⟩) "myname" = some "1.2.3" ∧
    oidtoname (registOne (emptyDB "u")
      ⟨"a", [("myname", "1.2.3")], none, none⟩) "1.2.3" = some "myname" :=
  C3_roundtrip_amended (emptyDB "u") ⟨"a", [("myname", "1.2.3")], none, none⟩
    "myname" "1.2.3" (by decide) (by decide) (by decide) (by decide)
    (by decide) (by decide)

/-- C4 counterexample: in `src/index.mts`, `oidtoname` takes no strict
flag and returns `undefined` for an unregistered OID instead of echoing
it back, so the claimed default-mode self-fallback fails on that
variant: on the fresh registry, `oidtoname "1.2.3.4"` is `none`, not
`some "1.2.3.4"`. -/
theorem C4_fallback_counterexample :
    recGet (emptyDB "u").dbOID2NAME "1.2.3.4" = none ∧
    oidtoname (emptyDB "u") "1.2.3.4" = none ∧
    oidtoname (emptyDB "u") "1.2.3.4" ≠ some "1.2.3.4" := by
  refine ⟨rfl, rfl, by decide⟩

/-- C4 amended: the claimed behaviour is that of the
`useUndef` variant of `oidtoname`: for an OID that is not a key of
`_dbOID2NAME` it returns the input unchanged by default and `undefined`
when the strict flag is set, and for a registered OID it returns the
stored name under either flag; the `src/index.mts` variant instead
returns `undefined` for an unregistered OID (it offers no flag and no
self-fallback) and the stored name otherwise. -/
theorem C4_fallback_amended (db : OIDDataBase) (oid : String) :
    (recGet db.dbOID2NAME oid = none →
      UseUndef.oidtoname db oid false = some oid ∧
      UseUndef.oidtoname db oid true = none ∧
      oidtoname db oid = none) ∧
    (∀ nm, recGet db.dbOID2NAME oid = some nm →
      (∀ b, UseUndef.oidtoname db oid b = some nm) ∧
      oidtoname db oid = some nm) := by
  constructor
  · intro h
    refine ⟨?_, ?_, ?_⟩
    · simp [UseUndef.oidtoname, h]
    · simp [UseUndef.oidtoname, h]
    · simp [oidtoname, h]
  · intro nm h
    refine ⟨fun b => ?_, ?_⟩
    · simp [UseUndef.oidtoname, h]
    · simp [oidtoname, h]

/-- C4 amended, witness: both halves at concrete inputs on the registry
with the X.509 set merged. -/
theorem C4_fallback_amended_witness :
    (UseUndef.oidtoname (regist (emptyDB "u") [OIDSET_X509]) "1.2.3.4" false =
        some "1.2.3.4" ∧
      UseUndef.oidtoname (regist (emptyDB "u") [OIDSET_X509]) "1.2.3.4" true =
        none ∧
      oidtoname (regist (emptyDB "u") [OIDSET_X509]) "1.2.3.4" = none) ∧
    (∀ b, UseUndef.oidtoname (regist (emptyDB "u") [OIDSET_X509]) "2.5.29.15" b =
        some "keyUsage") ∧
    oidtoname (regist (emptyDB "u") [OIDSET_X509]) "2.5.29.15" =
      some "keyUsage" :=
  ⟨(C4_fallback_amended (regist (emptyDB "u") [OIDSET_X509]) "1.2.3.4").1
      (by decide),
   (C4_fallback_amended (regist (emptyDB "u") [OIDSET_X509]) "2.5.29.15").2
      "keyUsage" (by decide)⟩

set_option maxRecDepth 20000

/-- C5: chained two-level fallback of `oidtoshort`: when the OID has no
canonical name the input OID is echoed; otherwise the short name is
returned when one is registered, and the canonical name itself (never
the OID, never `undefined`) when none is; checked generally against the
tables and concretely on the two bundled data sets, including the
the `organizationIdentifier` example of the spec. -/
theorem C5_oidtoshort_chain :
    (∀ (db : OIDDataBase) (oid : String),
      (recGet db.dbOID2NAME oid = none → oidtoshort db oid = some oid) ∧
      (∀ nm, recGet db.dbOID2NAME oid = some nm →
        (recGet db.dbNAME2SHORT nm = none → oidtoshort db oid = some nm) ∧
        (∀ s, recGet db.dbNAME2SHORT nm = some s →
          oidtoshort db oid = some s))) ∧
    oidtoshort (regist (emptyDB "u") [OIDSET_CRYPTO, OIDSET_X509]) "2.5.4.6" =
      some "C" ∧
    oidtoshort (regist (emptyDB "u") [OIDSET_CRYPTO, OIDSET_X509]) "2.5.4.97" =
      some "organizationIdentifier" ∧
    oidtoshort (regist (emptyDB "u") [OIDSET_CRYPTO, OIDSET_X509]) "1.2.3.4" =
      some "1.2.3.4" := by
  refine ⟨fun db oid => ⟨?_, fun nm h => ⟨?_, fun s hs => ?_⟩⟩, ?_, ?_, ?_⟩
  · intro h
    simp [oidtoshort, h]
  · intro h2
    simp [oidtoshort, h, h2]
  · simp [oidtoshort, h, hs]
  · decide
  · decide
  · decide

/-- C5 witness: the general part applied at a concrete registry and OID,
discharging the table hypotheses by evaluation. -/
theorem C5_oidtoshort_chain_witness :
    oidtoshort (regist (emptyDB "u") [OIDSET_X509]) "2.5.4.10" = some "OU" :=
  ((C5_oidtoshort_chain.1 (regist (emptyDB "u") [OIDSET_X509]) "2.5.4.10").2
    "organizationName" (by decide)).2 "OU" (by decide)

/-- C6: `nametooid` substitutes the alias target first when the input is
a key of `_dbALIAS`, then reads `_dbNAME2OID` of the resolved name with
no further fallback (so a miss is `undefined`); concretely, with the
crypto set registered, the alias "P-256" resolves to the OID of prime256v1. -/
theorem C6_alias_resolution :
    (∀ (db : OIDDataBase) (name target : String),
      recGet db.dbALIAS name = some target →
        nametooid db name = recGet db.dbNAME2OID target) ∧
    (∀ (db : OIDDataBase) (name : String),
      recGet db.dbALIAS name = none →
        nametooid db name = recGet db.dbNAME2OID name) ∧
    aliasto (regist (emptyDB "u") [OIDSET_CRYPTO]) "P-256" =
      some "prime256v1" ∧
    nametooid (regist (emptyDB "u") [OIDSET_CRYPTO]) "P-256" =
      some "1.2.840.10045.3.1.7" := by
  refine ⟨fun db name target h => ?_, fun db name h => ?_, ?_, ?_⟩
  · simp [nametooid, h]
  · simp [nametooid, h]
  · decide
  · decide

/-- C6 witness: the alias-substitution case applied at a concrete
registry and alias. -/
theorem C6_alias_resolution_witness :
    nametooid (regist (emptyDB "u") [OIDSET_CRYPTO]) "P-521" =
      recGet (regist (emptyDB "u") [OIDSET_CRYPTO]).dbNAME2OID "secp521r1" :=
  C6_alias_resolution.1 (regist (emptyDB "u") [OIDSET_CRYPTO]) "P-521"
    "secp521r1" (by decide)

/-- C7: with both bundled sets registered, "organizationIdentifier" is a
registered name with no short form; the `src/index.mts` `nametoshort`
returns `undefined` for it, although the claim, the own doc
comment of the method and the `useUndef` variant all return the input
name itself; for a name with a short entry it returns the stored short
name. -/
theorem C7_nametoshort_no_fallback :
    recGet (regist (emptyDB "u")
      [OIDSET_CRYPTO, OIDSET_X509]).dbNAME2OID "organizationIdentifier" =
      some "2.5.4.97" ∧
    nametoshort (regist (emptyDB "u")
      [OIDSET_CRYPTO, OIDSET_X509]) "organizationIdentifier" = none ∧
    UseUndef.nametoshort (regist (emptyDB "u")
      [OIDSET_CRYPTO, OIDSET_X509]) "organizationIdentifier" false =
      some "organizationIdentifier" ∧
    UseUndef.nametoshort (regist (emptyDB "u")
      [OIDSET_CRYPTO, OIDSET_X509]) "organizationIdentifier" true = none ∧
    nametoshort (regist (emptyDB "u")
      [OIDSET_CRYPTO, OIDSET_X509]) "commonName" = some "CN" := by
  refine ⟨by decide, by decide, by decide, by decide, by decide⟩

/-- C9: `shortToName` and `nameToShort` are not kept mutually inverse:
merging a fresh data set whose short-to-name record maps two distinct
shorts `s1` then `s2` (enumeration order) to the same canonical name `n`
leaves `shorttoname s2 = n` while `nametoshort n = s1`, because each of
the two inserts is guarded only by the key-presence check of its own table. -/
theorem C9_short_tables_not_inverse (st : OIDDataBase)
    (sn s1 s2 n : String) (nto : List (String × String))
    (al : Option (List (String × String)))
    (hne : s1 ≠ s2)
    (hc : ¬ st.setlist.contains sn = true)
    (h1 : recGet st.dbSHORT2NAME s1 = none)
    (h2 : recGet st.dbSHORT2NAME s2 = none)
    (h3 : recGet st.dbNAME2SHORT n = none) :
    shorttoname (registOne st ⟨sn, nto, some [(s1, n), (s2, n)], al⟩) s2 =
      some n ∧
    nametoshort (registOne st ⟨sn, nto, some [(s1, n), (s2, n)], al⟩) n =
      some s1 := by
  have e2 : recGet (nto.foldl addPairNO st).dbSHORT2NAME s2 = none := by
    rw [foldlNO_SHORT2NAME]; exact h2
  have e3 : recGet (nto.foldl addPairNO st).dbNAME2SHORT n = none := by
    rw [foldlNO_NAME2SHORT]; exact h3
  have fA : recGet (addPairSN (nto.foldl addPairNO st)
      (s1, n)).dbSHORT2NAME s2 = none := by
    rw [addPairSN_SHORT2NAME_eq]
    exact recGet_insertIfAbsent_of_none_ne s1 n e2 hne
  have fB : recGet (addPairSN (nto.foldl addPairNO st)
      (s1, n)).dbNAME2SHORT n = some s1 := by
    rw [addPairSN_NAME2SHORT_eq]
    exact recGet_insertIfAbsent_self_of_none s1 e3
  have g1 : recGet (addPairSN (addPairSN (nto.foldl addPairNO st) (s1, n))
      (s2, n)).dbSHORT2NAME s2 = some n := by
    rw [addPairSN_SHORT2NAME_eq]
    exact recGet_insertIfAbsent_self_of_none n fA
  have g2 : recGet (addPairSN (addPairSN (nto.foldl addPairNO st) (s1, n))
      (s2, n)).dbNAME2SHORT n = some s1 := by
    rw [addPairSN_NAME2SHORT_eq]
    exact recGet_insertIfAbsent_of_some n s2 fB
  unfold registOne
  rw [if_neg hc]
  cases al with
  | none =>
      constructor
      · show recGet (List.foldl addPairSN (nto.foldl addPairNO st)
          [(s1, n), (s2, n)]).dbSHORT2NAME s2 = some n
        simpa only [List.foldl_cons, List.foldl_nil] using g1
      · show recGet (List.foldl addPairSN (nto.foldl addPairNO st)
          [(s1, n), (s2, n)]).dbNAME2SHORT n = some s1
        simpa only [List.foldl_cons, List.foldl_nil] using g2
  | some la =>
      constructor
      · show recGet (la.foldl addPairAL (List.foldl addPairSN
          (nto.foldl addPairNO st) [(s1, n), (s2, n)])).dbSHORT2NAME s2 =
          some n
        rw [foldlAL_SHORT2NAME_fix]
        simpa only [List.foldl_cons, List.foldl_nil] using g1
      · show recGet (la.foldl addPairAL (List.foldl addPairSN
          (nto.foldl addPairNO st) [(s1, n), (s2, n)])).dbNAME2SHORT n =
          some s1
        rw [foldlAL_NAME2SHORT_fix]
        simpa only [List.foldl_cons, List.foldl_nil] using g2

/-- C9 witness: concrete two-short data set on the empty registry. -/
theorem C9_short_tables_not_inverse_witness :
    shorttoname (registOne (emptyDB "u")
      ⟨"s", [], some [("S1", "nm"), ("S2", "nm")], none⟩) "S2" = some "nm" ∧
    nametoshort (registOne (emptyDB "u")
      ⟨"s", [], some [("S1", "nm"), ("S2", "nm")], none⟩) "nm" = some "S1" :=
  C9_short_tables_not_inverse (emptyDB "u") "s" "S1" "S2" "nm" [] none
    (by decide) (by decide) (by decide) (by decide) (by decide)
